import Mathlib

/-!
Shallow embedding of the PAC annotations mapper service
(`service/messageHandler.go`).  External effects of the Go code
(`json.Unmarshal`, `json.Marshal`, `uuid.NewV4`, `time.Now`, the Kafka
producer and the compiled whitelist regexp) are passed in as explicit
parameters; the control flow of `HandleMessage`, `buildAnnotation` and
`buildConceptAnnotationsHeader` is translated statement by statement.
-/

/-- Modelled from the spec: the struct `thing` is declared in the
repository's `model.go`, which is not under `src/`; its two string fields
`ID` and `Predicate` are pinned by their use in `buildAnnotation` and by
spec section 3 (Outbound Annotation). -/
structure thing where
  ID : String
  Predicate : String
deriving DecidableEq, Repr

/-- Modelled from the spec: the struct ` annotation` from the missing
`model.go`; one field `Thing`, per `buildAnnotation` and spec section 3. -/
structure annotation where
  Thing : thing
deriving DecidableEq, Repr

/-- Modelled from the spec: the outbound envelope struct from the missing
`model.go`: a content `UUID` and the mapped annotations, spec section 3. -/
structure ConceptAnnotations where
  UUID : String
  Annotations : List annotation
deriving DecidableEq, Repr

/-- Modelled from the spec: one raw inbound annotation from the missing
`model.go`; fields `ConceptId` and `Predicate` are pinned by their use in
`buildAnnotation` and spec section 3 (RawAnnotation). -/
structure PacMetadataAnnotation where
  ConceptId : String
  Predicate : String
deriving DecidableEq, Repr

/-- Modelled from the spec: the decoded inbound publish event from the
missing `model.go`; fields `UUID` and `Annotations` are pinned by their
use in `HandleMessage` and spec section 3 (Inbound Publish Event). -/
structure PacMetadataPublishEvent where
  UUID : String
  Annotations : List PacMetadataAnnotation
deriving DecidableEq, Repr

/-- Go's `map[string]string`, as an association list. -/
abbrev Headers := List (String × String)

/-- Go map indexing `m[k]`: the zero value `""` when the key is absent. -/
def headerGet (h : Headers) (k : String) : String :=
  (List.lookup k h).getD ""

/-- The type `kafka.FTMessage`: headers plus string body. -/
structure FTMessage where
  Headers : Headers
  Body : String
deriving DecidableEq, Repr

/-- The Go constant `messageTimestampDateFormat`. -/
def messageTimestampDateFormat : String := "2006-01-02T15:04:05.000Z"

/-- The static predicate table `predicates` (six entries, in source order). -/
def predicates : Headers :=
  [("http://www.ft.com/ontology/classification/isClassifiedBy", "isClassifiedBy"),
   ("http://www.ft.com/ontology/annotation/hasAuthor", "hasAuthor"),
   ("http://www.ft.com/ontology/annotation/hasContributor", "hasContributor"),
   ("http://www.ft.com/ontology/annotation/about", "about"),
   ("http://www.ft.com/ontology/annotation/hasDisplayTag", "hasDisplayTag"),
   ("http://www.ft.com/ontology/annotation/mentions", "mentions")]

/-- Go's `predicate, found := predicates[p]`: table lookup with found flag. -/
def predicatesLookup (p : String) : Option String :=
  List.lookup p predicates

/-- A wall-clock reading, the components `time.Now().Format` prints for the
layout `2006-01-02T15:04:05.000Z`. -/
structure GoTime where
  year : Nat
  month : Nat
  day : Nat
  hour : Nat
  minute : Nat
  second : Nat
  millis : Nat
deriving DecidableEq, Repr

/-- Decimal digits of a natural number, least significant first. -/
def digitsRev (n : Nat) : List Char :=
  if h : n < 10 then [Char.ofNat (48 + n)]
  else Char.ofNat (48 + n % 10) :: digitsRev (n / 10)
termination_by n
decreasing_by
  exact Nat.div_lt_self (Nat.lt_of_lt_of_le (by omega) (Nat.le_of_not_lt h)) (by omega)

/-- Decimal notation of a natural number, as printed by Go. -/
def natDecimalRepr (n : Nat) : String :=
  String.mk (digitsRev n).reverse

/-- A run of `k` zero characters. -/
def zeroRun : Nat → String
  | 0 => ""
  | k + 1 => "0" ++ zeroRun k

/-- Go's zero-padding to a minimum width, as `Format` does for layout
fields such as `01` and `.000` (wider values are printed in full). -/
def padDecimal (w n : Nat) : String :=
  let s := natDecimalRepr n
  zeroRun (w - s.length) ++ s

/-- The call `time.Now().Format(messageTimestampDateFormat)`: the Go layout
`2006-01-02T15:04:05.000Z` (the trailing `Z` is a literal). -/
def formatTimestamp (t : GoTime) : String :=
  padDecimal 4 t.year ++ "-" ++ padDecimal 2 t.month ++ "-" ++ padDecimal 2 t.day ++
    "T" ++ padDecimal 2 t.hour ++ ":" ++ padDecimal 2 t.minute ++ ":" ++
    padDecimal 2 t.second ++ "." ++ padDecimal 3 t.millis ++ "Z"

/-- The function `buildConceptAnnotationsHeader`, with the two effectful reads
(`uuid.NewV4().String()` and `time.Now()`) passed in as parameters. -/
def buildConceptAnnotationsHeader (newUUID : String) (now : GoTime)
    (publishEventHeaders : Headers) : Headers :=
  [("Message-Id", newUUID),
   ("Message-Type", "concept-annotation"),
   ("Content-Type", headerGet publishEventHeaders "Content-Type"),
   ("X-Request-Id", headerGet publishEventHeaders "X-Request-Id"),
   ("Origin-System-Id", headerGet publishEventHeaders "Origin-System-Id"),
   ("Message-Timestamp", formatTimestamp now)]

/-- The method ` buildAnnotation`: `nil` when the predicate URI is not in the table,
otherwise the mapped outbound annotation. -/
def buildAnnotation (metadata : PacMetadataAnnotation) : Option annotation :=
  match predicatesLookup metadata.Predicate with
  | some predicate => some ⟨⟨metadata.ConceptId, predicate⟩⟩
  | none => none

/-- The annotation loop of `HandleMessage`: start from the empty slice and
append the mapped annotation whenever ` buildAnnotation` is non-nil. -/
def processAnnotations (l : List PacMetadataAnnotation) : List annotation :=
  l.foldl
    (fun acc value =>
      match buildAnnotation value with
      | some ann => acc ++ [ann]
      | none => acc)
    []

/-- The `ConceptAnnotations` value `HandleMessage` builds for a decoded
event. -/
def conceptAnnotationsFor (ev : PacMetadataPublishEvent) : ConceptAnnotations :=
  ⟨ev.UUID, processAnnotations ev.Annotations⟩

/-- The struct `AnnotationMapperService`: the compiled whitelist regexp is embedded by
its `MatchString` behaviour, the Kafka producer by its `SendMessage`
behaviour (`none` means a nil error). -/
structure AnnotationMapperService where
  whitelist : String → Bool
  messageProducer : FTMessage → Option String

/-- The external library calls one `HandleMessage` invocation makes:
`json.Unmarshal` into a `PacMetadataPublishEvent`, `json.Marshal` of a
`ConceptAnnotations`, and the fresh uuid and wall-clock reads. -/
structure Runtime where
  unmarshal : String → Except String PacMetadataPublishEvent
  marshal : ConceptAnnotations → Except String String
  newUUID : String
  now : GoTime

/-- The method `HandleMessage`, returning the Go error (`none` = nil) together with
the list of messages handed to the producer's `SendMessage`, in call
order. -/
def HandleMessage (mapper : AnnotationMapperService) (rt : Runtime)
    (msg : FTMessage) : Option String × List FTMessage :=
  let systemCode := headerGet msg.Headers "Origin-System-Id"
  if !mapper.whitelist systemCode then
    (none, [])
  else
    match rt.unmarshal msg.Body with
    | Except.error err => (some err, [])
    | Except.ok metadataPublishEvent =>
      match rt.marshal (conceptAnnotationsFor metadataPublishEvent) with
      | Except.error err => (some err, [])
      | Except.ok marshalledAnnotations =>
        let headers := buildConceptAnnotationsHeader rt.newUUID rt.now msg.Headers
        let message : FTMessage := ⟨headers, marshalledAnnotations⟩
        match mapper.messageProducer message with
        | some err => (some err, [message])
        | none => (none, [message])

/-- Modelled from the spec: JSON string quoting for the outbound body.
`model.go`, which carries the JSON field tags, is not under `src/`; the
escaping of `"` and backslash is the structural JSON rule, and the claims
evaluate it only on tag-free strings. -/
def escapeJSONChar (c : Char) : String :=
  if c = '"' then "\\\""
  else if c = '\\' then "\\\\"
  else String.singleton c

/-- Modelled from the spec: a JSON string literal. -/
def quoteJSON (s : String) : String :=
  "\"" ++ String.join (s.toList.map escapeJSONChar) ++ "\""

/-- Comma-joined concatenation, as JSON array elements are rendered. -/
def joinComma : List String → String
  | [] => ""
  | [s] => s
  | s :: rest => s ++ "," ++ joinComma rest

/-- Modelled from the spec: serialization of `thing`, with field tags `id`
and `predicate` (spec section 6: `annotations[].thing.id`,
`annotations[].thing.predicate`). -/
def marshalThing (t : thing) : String :=
  "\x7b\"id\":" ++ quoteJSON t.ID ++ ",\"predicate\":" ++ quoteJSON t.Predicate ++ "\x7d"

/-- Modelled from the spec: serialization of one outbound annotation, with
field tag `thing`. -/
def marshalAnnotationElem (a : annotation) : String :=
  "\x7b\"thing\":" ++ marshalThing a.Thing ++ "\x7d"

/-- Modelled from the spec: `json.Marshal` of the outbound envelope, field
tags `uuid` and `annotations` (spec section 8 examples); the empty list
serializes as `[]` since `HandleMessage` always starts from a non-nil
empty slice. -/
def marshalConceptAnnotations (ca : ConceptAnnotations) : String :=
  "\x7b\"uuid\":" ++ quoteJSON ca.UUID ++ ",\"annotations\":[" ++
    joinComma (ca.Annotations.map marshalAnnotationElem ) ++ "]\x7d"

/-- All characters of the string are decimal digits. -/
def allDigits (s : String) : Bool :=
  s.data.all Char.isDigit

/-- The field ranges `time.Now()` guarantees (amply: two-digit fields). -/
def validClock (t : GoTime) : Prop :=
  t.year < 10000 ∧ t.month < 100 ∧ t.day < 100 ∧ t.hour < 100 ∧
    t.minute < 100 ∧ t.second < 100 ∧ t.millis < 1000

instance (t : GoTime) : Decidable (validClock t) := by
  unfold validClock
  infer_instance

/-- The concrete inbound body of the spec's worked example. -/
def exampleBody : String :=
  "\x7b\"uuid\":\"u1\",\"annotations\":[\x7b\"conceptId\":\"c1\",\"predicate\":\"http://www.ft.com/ontology/annotation/about\"\x7d,\x7b\"conceptId\":\"c2\",\"predicate\":\"http://unknown/x\"\x7d]\x7d"

/-- The structural decoding of `exampleBody`. -/
def exampleEvent : PacMetadataPublishEvent :=
  ⟨"u1", [⟨"c1", "http://www.ft.com/ontology/annotation/about"⟩,
          ⟨"c2", "http://unknown/x"⟩]⟩

/-- The outbound body of the spec's worked example. -/
def exampleOutBody : String :=
  "\x7b\"uuid\":\"u1\",\"annotations\":[\x7b\"thing\":\x7b\"id\":\"c1\",\"predicate\":\"about\"\x7d\x7d]\x7d"

/-- A fixed wall-clock reading used in concrete instantiations. -/
def sampleClock : GoTime := ⟨2024, 10, 11, 12, 13, 14, 999⟩

/-- A service whose whitelist accepts everything and whose producer
succeeds. -/
def passMapper : AnnotationMapperService := ⟨fun _ => true, fun _ => none⟩

/-- A service whose whitelist rejects everything. -/
def rejectMapper : AnnotationMapperService := ⟨fun _ => false, fun _ => none⟩

/-- A service whose whitelist accepts everything and whose producer
fails. -/
def sendFailMapper : AnnotationMapperService :=
  ⟨fun _ => true, fun _ => some "kafka down"⟩

/-- A runtime whose decoder rejects every body. -/
def decodeFailRuntime : Runtime :=
  ⟨fun _ => Except.error "bad json", fun _ => Except.ok "", "mid", sampleClock⟩

/-- A runtime that decodes every body to the spec's example event and
serializes with the modelled marshaller. -/
def exampleRuntime : Runtime :=
  ⟨fun _ => Except.ok exampleEvent,
   fun ca => Except.ok (marshalConceptAnnotations ca), "mid", sampleClock⟩

/-- A runtime whose serializer fails. -/
def marshalFailRuntime : Runtime :=
  ⟨fun _ => Except.ok exampleEvent, fun _ => Except.error "marshal fail",
   "mid", sampleClock⟩

/-- The inbound message of the spec's worked example. -/
def exampleMsg : FTMessage :=
  ⟨[("Origin-System-Id", "pac-system"), ("X-Request-Id", "tid1"),
    ("Content-Type", "application/json")], exampleBody⟩

/-- An event with an empty annotations list. -/
def emptyEvent : PacMetadataPublishEvent := ⟨"u1", []⟩

/-- The serialized form of `emptyEvent`. -/
def emptyBody : String := "\x7b\"uuid\":\"u1\",\"annotations\":[]\x7d"

/-- A runtime that decodes every body to `emptyEvent`. -/
def emptyRuntime : Runtime :=
  ⟨fun _ => Except.ok emptyEvent,
   fun ca => Except.ok (marshalConceptAnnotations ca), "mid", sampleClock⟩

/-- An inbound message carrying `emptyBody`. -/
def emptyMsg : FTMessage := ⟨[("Origin-System-Id", "pac-system")], emptyBody⟩

/-! ### Helper lemmas about the annotation loop -/

theorem foldlAppend_eq (l : List PacMetadataAnnotation) (acc : List annotation) :
    List.foldl
      (fun acc value =>
        match buildAnnotation value with
        | some ann => acc ++ [ann]
        | none => acc)
      acc l = acc ++ l.filterMap buildAnnotation := by
  induction l generalizing acc with
  | nil => simp
  | cons a l ih =>
    cases h : buildAnnotation a with
    | some ann => simp [List.foldl_cons, h, ih, List.filterMap_cons]
    | none => simp [List.foldl_cons, h, ih, List.filterMap_cons]

theorem processAnnotations_eq_filterMap (l : List PacMetadataAnnotation) :
    processAnnotations l = l.filterMap buildAnnotation := by
  simpa [processAnnotations] using foldlAppend_eq l []

theorem buildAnnotation_none_iff (a : PacMetadataAnnotation) :
    buildAnnotation a = none ↔ predicatesLookup a.Predicate = none := by
  cases h : predicatesLookup a.Predicate <;> simp [ buildAnnotation, h]

theorem filterMap_map_some_sublist {α β : Type} (f : α → Option β) (l : List α) :
    List.Sublist ((l.filterMap f).map some) (l.map f) := by
  induction l with
  | nil => simp
  | cons a l ih =>
    cases h : f a with
    | some b =>
      simp only [List.filterMap_cons, h, List.map_cons]
      exact List.Sublist.cons₂ _ ih
    | none =>
      simp only [List.filterMap_cons, h, List.map_cons]
      exact List.Sublist.cons _ ih

theorem length_filterMap_add_countP {α β : Type} (f : α → Option β) (l : List α) :
    (l.filterMap f).length + l.countP (fun a => (f a).isNone) = l.length := by
  induction l with
  | nil => simp
  | cons a l ih =>
    cases h : f a <;>
      simp [List.filterMap_cons, h, List.countP_cons, ih] <;> omega

/-- Claim C1: a raw annotation whose predicate URI is a key of the static
table yields, at each of its occurrences in the decoded event's annotation
list, exactly one outbound annotation, whose `Thing.Predicate` is the
table's mapped short name and whose `Thing.ID` is the raw `ConceptId`. -/
theorem claim_C1 (a : PacMetadataAnnotation) (p : String)
    (l₁ l₂ : List PacMetadataAnnotation)
    (hp : predicatesLookup a.Predicate = some p) :
    buildAnnotation a = some ⟨⟨a.ConceptId, p⟩⟩ ∧
    processAnnotations (l₁ ++ a :: l₂) =
      processAnnotations l₁ ++ ⟨⟨a.ConceptId, p⟩⟩ :: processAnnotations l₂ := by
  have hb : buildAnnotation a = some ⟨⟨a.ConceptId, p⟩⟩ := by
    simp [ buildAnnotation, hp]
  refine ⟨hb, ?_⟩
  simp [processAnnotations_eq_filterMap, List.filterMap_append,
    List.filterMap_cons, hb]

/-- Witness for C1 at the spec's example annotation. -/
theorem claim_C1_witness :
    buildAnnotation ⟨"c1", "http://www.ft.com/ontology/annotation/about"⟩ =
      some ⟨⟨"c1", "about"⟩⟩ ∧
    processAnnotations
        ([] ++ (⟨"c1", "http://www.ft.com/ontology/annotation/about"⟩ : PacMetadataAnnotation) ::
          [⟨"c2", "http://unknown/x"⟩]) =
      processAnnotations [] ++ ⟨⟨"c1", "about"⟩⟩ ::
        processAnnotations [⟨"c2", "http://unknown/x"⟩] :=
  claim_C1 ⟨"c1", "http://www.ft.com/ontology/annotation/about"⟩ "about"
    [] [⟨"c2", "http://unknown/x"⟩] rfl

/-- Claim C2: raw annotations with unmapped predicates yield no outbound
annotation, the outbound count is the input count minus the unmapped
count, and the surviving outbound annotations keep the input's relative
order. -/
theorem claim_C2 (l : List PacMetadataAnnotation) :
    (∀ a ∈ l, predicatesLookup a.Predicate = none → buildAnnotation a = none) ∧
    processAnnotations l = l.filterMap buildAnnotation ∧
    (processAnnotations l).length +
        l.countP (fun a => (predicatesLookup a.Predicate).isNone) = l.length ∧
    (processAnnotations l).length =
      l.length - l.countP (fun a => (predicatesLookup a.Predicate).isNone) ∧
    List.Sublist ((processAnnotations l).map some) (l.map buildAnnotation ) := by
  have hcp : l.countP (fun a => ( buildAnnotation a).isNone) =
      l.countP (fun a => (predicatesLookup a.Predicate).isNone) := by
    induction l with
    | nil => rfl
    | cons a l ih =>
      have : (( buildAnnotation a).isNone) = ((predicatesLookup a.Predicate).isNone) := by
        cases h : predicatesLookup a.Predicate <;> simp [ buildAnnotation, h]
      simp [List.countP_cons, ih, this]
  have hAdd : (processAnnotations l).length +
      l.countP (fun a => (predicatesLookup a.Predicate).isNone) = l.length := by
    rw [processAnnotations_eq_filterMap, ← hcp]
    exact length_filterMap_add_countP buildAnnotation l
  refine ⟨?_, processAnnotations_eq_filterMap l, hAdd, by omega, ?_⟩
  · intro a _ h
    exact (buildAnnotation_none_iff a).mpr h
  · rw [processAnnotations_eq_filterMap]
    exact filterMap_map_some_sublist buildAnnotation l

/-- Witness for C2 at the spec's example annotation list. -/
theorem claim_C2_witness :
    (∀ a ∈ exampleEvent.Annotations,
        predicatesLookup a.Predicate = none → buildAnnotation a = none) ∧
    processAnnotations exampleEvent.Annotations =
      exampleEvent.Annotations.filterMap buildAnnotation ∧
    (processAnnotations exampleEvent.Annotations).length +
        exampleEvent.Annotations.countP
          (fun a => (predicatesLookup a.Predicate).isNone) =
      exampleEvent.Annotations.length ∧
    (processAnnotations exampleEvent.Annotations).length =
      exampleEvent.Annotations.length -
        exampleEvent.Annotations.countP
          (fun a => (predicatesLookup a.Predicate).isNone) ∧
    List.Sublist ((processAnnotations exampleEvent.Annotations).map some)
      (exampleEvent.Annotations.map buildAnnotation ) :=
  claim_C2 exampleEvent.Annotations

/-- Claim C3: a message whose `Origin-System-Id` header does not match the
whitelist is skipped with a nil error and no producer call; the runtime
(and with it the body decoder) is arbitrary, so nothing of the body is
processed. -/
theorem claim_C3 (mapper : AnnotationMapperService) (rt : Runtime)
    (msg : FTMessage)
    (hw : mapper.whitelist (headerGet msg.Headers "Origin-System-Id") = false) :
    HandleMessage mapper rt msg = (none, []) := by
  simp [HandleMessage, hw]

/-- Witness for C3: a rejecting whitelist, an undecodable body. -/
theorem claim_C3_witness :
    HandleMessage ⟨fun _ => false, fun _ => none⟩
      ⟨fun _ => Except.error "boom", fun _ => Except.error "boom", "mid",
        ⟨2024, 1, 2, 3, 4, 5, 6⟩⟩
      ⟨[], "junk"⟩ = (none, []) :=
  claim_C3 _ _ _ rfl

/-- Claim C4: past the whitelist, a body the decoder rejects makes
`HandleMessage` return that decode error and the producer is never
invoked. -/
theorem claim_C4 (mapper : AnnotationMapperService) (rt : Runtime)
    (msg : FTMessage) (e : String)
    (hw : mapper.whitelist (headerGet msg.Headers "Origin-System-Id") = true)
    (hd : rt.unmarshal msg.Body = Except.error e) :
    HandleMessage mapper rt msg = (some e, []) := by
  simp [HandleMessage, hw, hd]

/-- Witness for C4 at a concrete malformed body. -/
theorem claim_C4_witness :
    HandleMessage ⟨fun _ => true, fun _ => none⟩
      ⟨fun _ => Except.error "bad json", fun _ => Except.ok "", "mid",
        ⟨2024, 1, 2, 3, 4, 5, 6⟩⟩
      ⟨[("Origin-System-Id", "pac-system")], "\x7bnot json"⟩ =
      (some "bad json", []) :=
  claim_C4 _ _ _ "bad json" rfl rfl

/-! ### Helper lemmas about decimal padding -/

theorem digitsRev_length_le : ∀ (k n : Nat), 1 ≤ k → n < 10 ^ k →
    (digitsRev n).length ≤ k := by
  intro k
  induction k with
  | zero => intro n h; omega
  | succ k ih =>
    intro n _ hn
    unfold digitsRev
    split
    · simp
    · rename_i h
      have h10 : 10 ≤ n := Nat.le_of_not_lt h
      have hk1 : 1 ≤ k := by
        rcases Nat.eq_zero_or_pos k with hz | hp
        · subst hz; norm_num at hn; omega
        · exact hp
      have hdiv : n / 10 < 10 ^ k := by
        refine (Nat.div_lt_iff_lt_mul (by omega)).mpr ?_
        have hpow : 10 ^ (k + 1) = 10 ^ k * 10 := by ring
        omega
      have hle := ih (n / 10) hk1 hdiv
      simp only [List.length_cons]
      omega

theorem digitsRev_allDigits : ∀ (n : Nat), ∀ c ∈ digitsRev n, c.isDigit = true := by
  intro n
  induction n using Nat.strong_induction_on with
  | _ n ih =>
    unfold digitsRev
    split
    · rename_i h
      intro c hc
      simp only [List.mem_singleton] at hc
      subst hc
      interval_cases n <;> decide
    · rename_i h
      intro c hc
      simp only [List.mem_cons] at hc
      rcases hc with hc | hc
      · subst hc
        obtain ⟨m, hm, hmeq⟩ : ∃ m, m < 10 ∧ n % 10 = m :=
          ⟨n % 10, Nat.mod_lt _ (by omega), rfl⟩
        rw [hmeq]
        interval_cases m <;> decide
      · exact ih (n / 10) (Nat.div_lt_self (by omega) (by omega)) c hc

theorem zeroRun_length (k : Nat) : (zeroRun k).length = k := by
  induction k with
  | zero => rfl
  | succ k ih =>
    rw [show zeroRun (k + 1) = "0" ++ zeroRun k from rfl, String.length_append, ih]
    have h1 : ("0" : String).length = 1 := rfl
    omega

theorem zeroRun_allDigits (k : Nat) : ∀ c ∈ (zeroRun k).data, c.isDigit = true := by
  induction k with
  | zero => intro c hc; simp [zeroRun] at hc
  | succ k ih =>
    intro c hc
    rw [show zeroRun (k + 1) = "0" ++ zeroRun k from rfl, String.data_append] at hc
    rcases List.mem_append.mp hc with hc | hc
    · simp only [show ("0" : String).data = ['0'] from rfl, List.mem_singleton] at hc
      subst hc
      decide
    · exact ih c hc

theorem natDecimalRepr_length_le (k n : Nat) (hk : 1 ≤ k) (hn : n < 10 ^ k) :
    (natDecimalRepr n).length ≤ k := by
  rw [natDecimalRepr, String.length_mk, List.length_reverse]
  exact digitsRev_length_le k n hk hn

theorem padDecimal_length (w n : Nat) (hw : 1 ≤ w) (hn : n < 10 ^ w) :
    (padDecimal w n).length = w := by
  have hle := natDecimalRepr_length_le w n hw hn
  simp only [padDecimal, String.length_append, zeroRun_length]
  omega

theorem padDecimal_allDigits (w n : Nat) : allDigits (padDecimal w n) = true := by
  simp only [allDigits, padDecimal, String.data_append, List.all_append,
    Bool.and_eq_true, List.all_eq_true]
  refine ⟨fun c hc => zeroRun_allDigits _ c hc, fun c hc => ?_⟩
  have hc' : c ∈ digitsRev n := by
    rw [show (natDecimalRepr n).data = (digitsRev n).reverse from rfl] at hc
    exact List.mem_reverse.mp hc
  exact digitsRev_allDigits n c hc'

/-- Claim C5: the derived outbound header map has exactly the six keys
`Message-Id` (the fresh uuid), `Message-Type` (`"concept-annotation"`),
`Content-Type`, `X-Request-Id` and `Origin-System-Id` (copied from the
inbound headers) and `Message-Timestamp`; every other key is absent, and
the map is newly constructed: it depends on the inbound headers only
through the three copied values. -/
theorem claim_C5 (u : String) (t : GoTime) (h h' : Headers) :
    (buildConceptAnnotationsHeader u t h).map Prod.fst =
      ["Message-Id", "Message-Type", "Content-Type", "X-Request-Id",
        "Origin-System-Id", "Message-Timestamp"] ∧
    List.lookup "Message-Id" (buildConceptAnnotationsHeader u t h) = some u ∧
    List.lookup "Message-Type" (buildConceptAnnotationsHeader u t h) =
      some "concept-annotation" ∧
    List.lookup "Content-Type" (buildConceptAnnotationsHeader u t h) =
      some (headerGet h "Content-Type") ∧
    List.lookup "X-Request-Id" (buildConceptAnnotationsHeader u t h) =
      some (headerGet h "X-Request-Id") ∧
    List.lookup "Origin-System-Id" (buildConceptAnnotationsHeader u t h) =
      some (headerGet h "Origin-System-Id") ∧
    List.lookup "Message-Timestamp" (buildConceptAnnotationsHeader u t h) =
      some (formatTimestamp t) ∧
    (∀ k, k ∉ (["Message-Id", "Message-Type", "Content-Type", "X-Request-Id",
        "Origin-System-Id", "Message-Timestamp"] : List String) →
      List.lookup k (buildConceptAnnotationsHeader u t h) = none) ∧
    (headerGet h "Content-Type" = headerGet h' "Content-Type" →
      headerGet h "X-Request-Id" = headerGet h' "X-Request-Id" →
      headerGet h "Origin-System-Id" = headerGet h' "Origin-System-Id" →
      buildConceptAnnotationsHeader u t h = buildConceptAnnotationsHeader u t h') := by
  refine ⟨rfl, rfl, rfl, rfl, rfl, rfl, rfl, ?_, ?_⟩
  · intro k hk
    simp only [List.mem_cons, List.not_mem_nil, or_false, not_or] at hk
    obtain ⟨h1, h2, h3, h4, h5, h6⟩ := hk
    have b1 : (k == "Message-Id") = false := beq_eq_false_iff_ne.mpr h1
    have b2 : (k == "Message-Type") = false := beq_eq_false_iff_ne.mpr h2
    have b3 : (k == "Content-Type") = false := beq_eq_false_iff_ne.mpr h3
    have b4 : (k == "X-Request-Id") = false := beq_eq_false_iff_ne.mpr h4
    have b5 : (k == "Origin-System-Id") = false := beq_eq_false_iff_ne.mpr h5
    have b6 : (k == "Message-Timestamp") = false := beq_eq_false_iff_ne.mpr h6
    simp [buildConceptAnnotationsHeader, List.lookup, b1, b2, b3, b4, b5, b6]
  · intro e1 e2 e3
    simp [buildConceptAnnotationsHeader, e1, e2, e3]

/-- Witness for C5: the fresh id is looked up, a foreign key is absent. -/
theorem claim_C5_witness :
    List.lookup "Message-Id"
        (buildConceptAnnotationsHeader "mid" sampleClock []) = some "mid" ∧
    List.lookup "X-Custom-Header"
        (buildConceptAnnotationsHeader "mid" sampleClock []) = none :=
  ⟨(claim_C5 "mid" sampleClock [] []).2.1,
   (claim_C5 "mid" sampleClock [] []).2.2.2.2.2.2.2.1 "X-Custom-Header"
     (by decide)⟩

/-- Claim C6: the header deriver puts the freshly generated uuid — and
nothing derived from the input — into `Message-Id` (distinct fresh uuids
give distinct ids, whatever the inbound headers), and puts the formatted
wall-clock reading into `Message-Timestamp`, in the shape
YYYY-MM-DDTHH:mm:ss.sssZ for any in-range clock reading. -/
theorem claim_C6 (u : String) (t : GoTime) (h : Headers) :
    List.lookup "Message-Id" (buildConceptAnnotationsHeader u t h) = some u ∧
    (∀ (u' : String) (t' : GoTime) (h' : Headers), u ≠ u' →
      List.lookup "Message-Id" (buildConceptAnnotationsHeader u t h) ≠
        List.lookup "Message-Id" (buildConceptAnnotationsHeader u' t' h')) ∧
    List.lookup "Message-Timestamp" (buildConceptAnnotationsHeader u t h) =
      some (formatTimestamp t) ∧
    (validClock t →
      ∃ ys mos ds hs mins ss ms,
        formatTimestamp t =
          ys ++ "-" ++ mos ++ "-" ++ ds ++ "T" ++ hs ++ ":" ++ mins ++ ":" ++
            ss ++ "." ++ ms ++ "Z" ∧
        ys.length = 4 ∧ mos.length = 2 ∧ ds.length = 2 ∧ hs.length = 2 ∧
        mins.length = 2 ∧ ss.length = 2 ∧ ms.length = 3 ∧
        allDigits ys = true ∧ allDigits mos = true ∧ allDigits ds = true ∧
        allDigits hs = true ∧ allDigits mins = true ∧ allDigits ss = true ∧
        allDigits ms = true) := by
  refine ⟨rfl, ?_, rfl, ?_⟩
  · intro u' t' h' hne hEq
    have h1 : List.lookup "Message-Id" (buildConceptAnnotationsHeader u t h) =
        some u := rfl
    have h2 : List.lookup "Message-Id" (buildConceptAnnotationsHeader u' t' h') =
        some u' := rfl
    rw [h1, h2] at hEq
    exact hne (Option.some.inj hEq)
  · intro hv
    obtain ⟨hy, hmo, hd, hh, hmi, hs, hms⟩ := hv
    refine ⟨padDecimal 4 t.year, padDecimal 2 t.month, padDecimal 2 t.day,
      padDecimal 2 t.hour, padDecimal 2 t.minute, padDecimal 2 t.second,
      padDecimal 3 t.millis, rfl,
      padDecimal_length 4 t.year (by omega) (lt_of_lt_of_eq hy (by norm_num)),
      padDecimal_length 2 t.month (by omega) (lt_of_lt_of_eq hmo (by norm_num)),
      padDecimal_length 2 t.day (by omega) (lt_of_lt_of_eq hd (by norm_num)),
      padDecimal_length 2 t.hour (by omega) (lt_of_lt_of_eq hh (by norm_num)),
      padDecimal_length 2 t.minute (by omega) (lt_of_lt_of_eq hmi (by norm_num)),
      padDecimal_length 2 t.second (by omega) (lt_of_lt_of_eq hs (by norm_num)),
      padDecimal_length 3 t.millis (by omega) (lt_of_lt_of_eq hms (by norm_num)),
      padDecimal_allDigits 4 t.year, padDecimal_allDigits 2 t.month,
      padDecimal_allDigits 2 t.day, padDecimal_allDigits 2 t.hour,
      padDecimal_allDigits 2 t.minute, padDecimal_allDigits 2 t.second,
      padDecimal_allDigits 3 t.millis⟩

/-- Witness for C6 at a concrete clock reading and uuid. -/
theorem claim_C6_witness :
    List.lookup "Message-Id"
        (buildConceptAnnotationsHeader "mid" sampleClock []) = some "mid" ∧
    (∃ ys mos ds hs mins ss ms,
      formatTimestamp sampleClock =
        ys ++ "-" ++ mos ++ "-" ++ ds ++ "T" ++ hs ++ ":" ++ mins ++ ":" ++
          ss ++ "." ++ ms ++ "Z" ∧
      ys.length = 4 ∧ mos.length = 2 ∧ ds.length = 2 ∧ hs.length = 2 ∧
      mins.length = 2 ∧ ss.length = 2 ∧ ms.length = 3 ∧
      allDigits ys = true ∧ allDigits mos = true ∧ allDigits ds = true ∧
      allDigits hs = true ∧ allDigits mins = true ∧ allDigits ss = true ∧
      allDigits ms = true) :=
  ⟨(claim_C6 "mid" sampleClock []).1,
   (claim_C6 "mid" sampleClock []).2.2.2 (by decide)⟩

/-- Claim C7: a whitelisted message decoding to an event with no
annotations is a success, not a skip: the outbound envelope keeps the
event's UUID with zero annotations, serialized with an empty array (the
loop starts from a non-nil empty slice), and the producer is invoked
exactly once. -/
theorem claim_C7 (mapper : AnnotationMapperService) (rt : Runtime)
    (msg : FTMessage) (ev : PacMetadataPublishEvent)
    (hw : mapper.whitelist (headerGet msg.Headers "Origin-System-Id") = true)
    (hd : rt.unmarshal msg.Body = Except.ok ev)
    (hann : ev.Annotations = [])
    (hm : rt.marshal ⟨ev.UUID, []⟩ =
      Except.ok (marshalConceptAnnotations ⟨ev.UUID, []⟩))
    (hs : mapper.messageProducer
        ⟨buildConceptAnnotationsHeader rt.newUUID rt.now msg.Headers,
          marshalConceptAnnotations ⟨ev.UUID, []⟩⟩ = none) :
    HandleMessage mapper rt msg =
      (none, [⟨buildConceptAnnotationsHeader rt.newUUID rt.now msg.Headers,
        marshalConceptAnnotations ⟨ev.UUID, []⟩⟩]) ∧
    marshalConceptAnnotations ⟨"u1", []⟩ =
      "\x7b\"uuid\":\"u1\",\"annotations\":[]\x7d" := by
  have hca : conceptAnnotationsFor ev = ⟨ev.UUID, []⟩ := by
    simp [conceptAnnotationsFor, hann, processAnnotations]
  refine ⟨?_, rfl⟩
  simp [HandleMessage, hw, hd, hca, hm, hs]

/-- Witness for C7 at a concretely decoded empty-annotations event. -/
theorem claim_C7_witness :
    HandleMessage passMapper emptyRuntime emptyMsg =
      (none, [⟨buildConceptAnnotationsHeader "mid" sampleClock emptyMsg.Headers,
        marshalConceptAnnotations ⟨"u1", []⟩⟩]) ∧
    marshalConceptAnnotations ⟨"u1", []⟩ =
      "\x7b\"uuid\":\"u1\",\"annotations\":[]\x7d" :=
  claim_C7 passMapper emptyRuntime emptyMsg emptyEvent rfl rfl rfl rfl rfl

/-- Claim C8: each fatal error — decode failure, outbound serialization
failure, send failure — aborts the pipeline and is returned unchanged:
zero producer calls on decode or encode failure, exactly one producer
call (never repeated) on send failure. -/
theorem claim_C8 (mapper : AnnotationMapperService) (rt : Runtime)
    (msg : FTMessage) :
    (∀ e : String,
      mapper.whitelist (headerGet msg.Headers "Origin-System-Id") = true →
      rt.unmarshal msg.Body = Except.error e →
      HandleMessage mapper rt msg = (some e, [])) ∧
    (∀ (ev : PacMetadataPublishEvent) (e : String),
      mapper.whitelist (headerGet msg.Headers "Origin-System-Id") = true →
      rt.unmarshal msg.Body = Except.ok ev →
      rt.marshal (conceptAnnotationsFor ev) = Except.error e →
      HandleMessage mapper rt msg = (some e, [])) ∧
    (∀ (ev : PacMetadataPublishEvent) (body e : String),
      mapper.whitelist (headerGet msg.Headers "Origin-System-Id") = true →
      rt.unmarshal msg.Body = Except.ok ev →
      rt.marshal (conceptAnnotationsFor ev) = Except.ok body →
      mapper.messageProducer
          ⟨buildConceptAnnotationsHeader rt.newUUID rt.now msg.Headers, body⟩ =
        some e →
      HandleMessage mapper rt msg =
        (some e,
          [⟨buildConceptAnnotationsHeader rt.newUUID rt.now msg.Headers,
            body⟩])) := by
  refine ⟨?_, ?_, ?_⟩
  · intro e hw hd
    simp [HandleMessage, hw, hd]
  · intro ev e hw hd hm
    simp [HandleMessage, hw, hd, hm]
  · intro ev body e hw hd hm hs
    simp [HandleMessage, hw, hd, hm, hs]

/-- Witness for C8 at a concrete send failure. -/
theorem claim_C8_witness :
    HandleMessage sendFailMapper exampleRuntime exampleMsg =
      (some "kafka down",
        [⟨buildConceptAnnotationsHeader "mid" sampleClock exampleMsg.Headers,
          marshalConceptAnnotations (conceptAnnotationsFor exampleEvent)⟩]) :=
  (claim_C8 sendFailMapper exampleRuntime exampleMsg).2.2 exampleEvent
    (marshalConceptAnnotations (conceptAnnotationsFor exampleEvent))
    "kafka down" rfl rfl rfl rfl

/-- Claim C9: on the spec's worked example body, with a whitelisted
origin, the producer is invoked exactly once and its message body is the
worked example's outbound body (the mapped first annotation survives, the
unknown-predicate one is dropped). -/
theorem claim_C9 (mapper : AnnotationMapperService) (rt : Runtime)
    (msg : FTMessage)
    (hw : mapper.whitelist (headerGet msg.Headers "Origin-System-Id") = true)
    (hb : msg.Body = exampleBody)
    (hd : rt.unmarshal exampleBody = Except.ok exampleEvent)
    (hm : rt.marshal (conceptAnnotationsFor exampleEvent) =
      Except.ok (marshalConceptAnnotations (conceptAnnotationsFor exampleEvent))) :
    (HandleMessage mapper rt msg).2 =
      [⟨buildConceptAnnotationsHeader rt.newUUID rt.now msg.Headers,
        exampleOutBody⟩] ∧
    marshalConceptAnnotations (conceptAnnotationsFor exampleEvent) =
      exampleOutBody := by
  have hmarsh : marshalConceptAnnotations (conceptAnnotationsFor exampleEvent) =
      exampleOutBody := rfl
  refine ⟨?_, hmarsh⟩
  cases hp : mapper.messageProducer
      ⟨buildConceptAnnotationsHeader rt.newUUID rt.now msg.Headers,
        exampleOutBody⟩ with
  | none => simp [HandleMessage, hw, hb, hd, hm, hmarsh, hp]
  | some e => simp [HandleMessage, hw, hb, hd, hm, hmarsh, hp]

/-- Witness for C9 with fully concrete collaborators. -/
theorem claim_C9_witness :
    (HandleMessage passMapper exampleRuntime exampleMsg).2 =
      [⟨buildConceptAnnotationsHeader "mid" sampleClock exampleMsg.Headers,
        exampleOutBody⟩] ∧
    marshalConceptAnnotations (conceptAnnotationsFor exampleEvent) =
      exampleOutBody :=
  claim_C9 passMapper exampleRuntime exampleMsg rfl rfl rfl rfl

/-- Claim C10: a missing inbound header is read as the empty string and
never makes `HandleMessage` fail: a missing `Origin-System-Id` means the
whitelist is matched against `""` (skip when that does not match), and a
missing copied header is forwarded as an empty-string value. -/
theorem claim_C10 (mapper : AnnotationMapperService) (rt : Runtime)
    (msg : FTMessage) (u : String) (t : GoTime) :
    (List.lookup "Origin-System-Id" msg.Headers = none →
      headerGet msg.Headers "Origin-System-Id" = "" ∧
      (mapper.whitelist "" = false → HandleMessage mapper rt msg = (none, []))) ∧
    (List.lookup "Content-Type" msg.Headers = none →
      List.lookup "Content-Type" (buildConceptAnnotationsHeader u t msg.Headers) =
        some "") ∧
    (List.lookup "X-Request-Id" msg.Headers = none →
      List.lookup "X-Request-Id" (buildConceptAnnotationsHeader u t msg.Headers) =
        some "") ∧
    (List.lookup "Origin-System-Id" msg.Headers = none →
      List.lookup "Origin-System-Id"
          (buildConceptAnnotationsHeader u t msg.Headers) = some "") := by
  have hget : ∀ k, List.lookup k msg.Headers = none →
      headerGet msg.Headers k = "" := by
    intro k hk
    simp [headerGet, hk]
  have hct : List.lookup "Content-Type"
      (buildConceptAnnotationsHeader u t msg.Headers) =
      some (headerGet msg.Headers "Content-Type") := rfl
  have hxr : List.lookup "X-Request-Id"
      (buildConceptAnnotationsHeader u t msg.Headers) =
      some (headerGet msg.Headers "X-Request-Id") := rfl
  have hos : List.lookup "Origin-System-Id"
      (buildConceptAnnotationsHeader u t msg.Headers) =
      some (headerGet msg.Headers "Origin-System-Id") := rfl
  refine ⟨?_, ?_, ?_, ?_⟩
  · intro h0
    refine ⟨hget _ h0, ?_⟩
    intro hwl
    simp [HandleMessage, hget _ h0, hwl]
  · intro h0
    rw [hct, hget _ h0]
  · intro h0
    rw [hxr, hget _ h0]
  · intro h0
    rw [hos, hget _ h0]

/-- Witness for C10 on a message with no headers at all. -/
theorem claim_C10_witness :
    headerGet ([] : Headers) "Origin-System-Id" = "" ∧
    List.lookup "Content-Type"
        (buildConceptAnnotationsHeader "mid" sampleClock []) = some "" :=
  ⟨((claim_C10 rejectMapper decodeFailRuntime ⟨[], ""⟩ "mid" sampleClock).1
      rfl).1,
   (claim_C10 rejectMapper decodeFailRuntime ⟨[], ""⟩ "mid" sampleClock).2.1
     rfl⟩
